import Mathlib

/-!
Verification development for the trait-mapping pipeline
(`bin/trait_mapping/trait_mapping.py`).

The Python source is shallowly embedded: pure functions become Lean
functions, Python exceptions become `Except PyError`, Python `None`-able
values become `Option`, Python `set` objects become duplicate-free lists
built by insert-if-absent, and Python's stable `list.sort` becomes
`List.insertionSort` (a stable sort) with the comparator translated from
the relevant `__lt__` method.
-/

/-- Python runtime errors that the embedded code can raise. -/
inductive PyError where
  | typeError
  | keyError
  | indexError
deriving DecidableEq, Repr

/-- `hay.startsWith needle` on character lists (used for substring search). -/
def listStartsWith : List Char → List Char → Bool
  | _, [] => true
  | [], _ :: _ => false
  | h :: hs, n :: ns => h == n && listStartsWith hs ns

/-- `needle` occurs as a contiguous substring of `hay` (Python `needle in hay`). -/
def listContainsSub : List Char → List Char → Bool
  | [], needle => needle.isEmpty
  | h :: t, needle => listStartsWith (h :: t) needle || listContainsSub t needle

/-- Python's `needle in hay` for strings. -/
def strContainsSub (hay needle : String) : Bool :=
  listContainsSub hay.toList needle.toList

/-- Python `str.lower()` (character-wise, which agrees on the ASCII data
this pipeline handles). -/
def strToLower (s : String) : String :=
  ⟨s.toList.map Char.toLower⟩

/-- Python `str.upper()` (character-wise). -/
def strToUpper (s : String) : String :=
  ⟨s.toList.map Char.toUpper⟩

/-- Python `str.endswith(suffix)`. -/
def strEndsWith (s suffix : String) : Bool :=
  listStartsWith s.toList.reverse suffix.toList.reverse

/-- Python slicing `s[n:]`. -/
def strDrop (s : String) (n : Nat) : String :=
  ⟨s.toList.drop n⟩

/-- Python `str.rstrip("/")`: drop all trailing slash characters. -/
def rstripSlash (s : String) : String :=
  ⟨(s.toList.reverse.dropWhile (fun c => c == '/')).reverse⟩

/-- Python `NON_NUMERIC_RE.sub("", s)` with `NON_NUMERIC_RE = re.compile(r'[^\d]+')`:
remove every non-digit character. -/
def stripNonDigits (s : String) : String :=
  ⟨s.toList.filter Char.isDigit⟩

/-- Split a character list at every occurrence of `sep` (like Python
`str.split(sep)`: the result is never empty, and empty pieces are kept). -/
def splitCharList (sep : Char) : List Char → List (List Char)
  | [] => [[]]
  | c :: rest =>
      match splitCharList sep rest with
      | [] => if c == sep then [[], []] else [[c]]
      | piece :: pieces =>
          if c == sep then [] :: piece :: pieces else (c :: piece) :: pieces

/-- Python `s.split("/")`. -/
def strSplitSlash (s : String) : List String :=
  (splitCharList '/' s.toList).map (fun cs => ⟨cs⟩)

/-!
## `OntologyUri` (source lines 21-41)

`db_to_uri_dict` maps a lowercased database name to a URI template whose
only placeholder is at the very end, so `template.format(id)` is modelled
as appending `id` to the template's constant part.
-/

/-- `OntologyUri.db_to_uri_dict`, each template given by its constant part
(the `.format` placeholder sits at the end of every template). -/
def db_to_uri_dict : List (String × String) :=
  [("orphanet", "http://www.orpha.net/ORDO/Orphanet_"),
   ("omim", "http://identifiers.org/omim/"),
   ("efo", "http://www.ebi.ac.uk/efo/EFO_"),
   ("mesh", "http://identifiers.org/mesh/"),
   ("medgen", "http://identifiers.org/medgen/"),
   ("human phenotype ontology", "http://purl.obolibrary.org/obo/HP_"),
   ("hp", "http://purl.obolibrary.org/obo/HP_")]

/-- `OntologyUri.__init__`: builds `self.uri`. A database name outside
`db_to_uri_dict` raises `KeyError` (the dict subscript). For the long name
of the phenotype ontology the identifier's first three characters are
stripped (`self.id_[3:]`). -/
def OntologyUri (id_ db : String) : Except PyError String :=
  if strToLower db = "human phenotype ontology" then
    match db_to_uri_dict.lookup (strToLower db) with
    | none => Except.error PyError.keyError
    | some template => Except.ok (template ++ strDrop id_ 3)
  else
    match db_to_uri_dict.lookup (strToLower db) with
    | none => Except.error PyError.keyError
    | some template => Except.ok (template ++ id_)

/-!
## `OxOMapping` and its `__eq__` (source lines 44-69)

The attribute state of an `OxOMapping` object; `uri` stores
`str(OntologyUri(id_, db))`.
-/

structure OxOMapping where
  label : String
  db : String
  id_ : String
  uri : String
  distance : Nat
  query_id : String
  in_efo : Bool
  is_current : Bool
  ontology_label : String
deriving DecidableEq, Repr

/-- The result of a Python `==` comparison: either a genuine `bool`, or
(as `OxOMapping.__eq__` does) a tuple of booleans. -/
inductive PyEqResult where
  | bool (b : Bool)
  | tuple (bs : List Bool)
deriving DecidableEq, Repr

/-- Python truthiness of a `PyEqResult`: a tuple is truthy iff non-empty. -/
def pyTruthy : PyEqResult → Bool
  | PyEqResult.bool b => b
  | PyEqResult.tuple bs => !bs.isEmpty

/-- A Python object compared against an `OxOMapping`: either another
`OxOMapping`, or a value of any other type (its identity is irrelevant). -/
inductive PyObj where
  | oxoMapping (m : OxOMapping)
  | other (tag : String)

/-- `OxOMapping.__eq__`: for another `OxOMapping` it returns the 7-tuple of
per-field comparisons (not `and`-ed together); for any other type it
returns `False`. -/
def OxOMapping.eq (a : OxOMapping) : PyObj → PyEqResult
  | PyObj.other _ => PyEqResult.bool false
  | PyObj.oxoMapping b =>
      PyEqResult.tuple [a.label == b.label, a.db == b.db, a.id_ == b.id_,
        a.distance == b.distance, a.in_efo == b.in_efo,
        a.is_current == b.is_current, a.ontology_label == b.ontology_label]

/-!
## Zooma data model (source lines 85-161)
-/

/-- `ZoomaConfidence` enum. -/
inductive ZoomaConfidence where
  | LOW
  | MEDIUM
  | GOOD
  | HIGH
deriving DecidableEq, Repr

/-- The enum member values (`LOW = 1` .. `HIGH = 4`), used by
`ZoomaConfidence.__lt__`. -/
def ZoomaConfidence.value : ZoomaConfidence → Nat
  | ZoomaConfidence.LOW => 1
  | ZoomaConfidence.MEDIUM => 2
  | ZoomaConfidence.GOOD => 3
  | ZoomaConfidence.HIGH => 4

/-- `str(ZoomaConfidence...)` returns the member name. -/
def ZoomaConfidence.memberName : ZoomaConfidence → String
  | ZoomaConfidence.LOW => "LOW"
  | ZoomaConfidence.MEDIUM => "MEDIUM"
  | ZoomaConfidence.GOOD => "GOOD"
  | ZoomaConfidence.HIGH => "HIGH"

/-- `ZoomaConfidence[name]` enum subscript: raises `KeyError` for a name
that is not a member (used with `confidence.upper()`). -/
def zoomaConfidenceMember (s : String) : Except PyError ZoomaConfidence :=
  match s with
  | "LOW" => Except.ok ZoomaConfidence.LOW
  | "MEDIUM" => Except.ok ZoomaConfidence.MEDIUM
  | "GOOD" => Except.ok ZoomaConfidence.GOOD
  | "HIGH" => Except.ok ZoomaConfidence.HIGH
  | _ => Except.error PyError.keyError

/-- Attribute state of a `ZoomaEntry` object. -/
structure ZoomaEntry where
  uri : String
  confidence : ZoomaConfidence
  source : String
  ontology_label : String
  in_efo : Bool
  is_current : Bool
deriving DecidableEq, Repr

/-- `ZoomaEntry.__init__`: `confidence` is converted by
`ZoomaConfidence[confidence.upper()]`, which can raise `KeyError`. -/
def mkZoomaEntry (uri confidence source : String) : Except PyError ZoomaEntry := do
  let c ← zoomaConfidenceMember (strToUpper confidence)
  pure ⟨uri, c, source, "", false, false⟩

/-- Attribute state of a `ZoomaMapping` object; `confidence` is kept as the
raw string from the Zooma response (only its entries hold the enum). -/
structure ZoomaMapping where
  zooma_label : String
  confidence : String
  source : String
  zooma_entry_list : List ZoomaEntry
deriving DecidableEq, Repr

/-- `ZoomaMapping.__init__`: one `ZoomaEntry` per URI in `uri_list`. -/
def mkZoomaMapping (uri_list : List String) (zooma_label confidence source : String) :
    Except PyError ZoomaMapping := do
  let entries ← uri_list.mapM (fun uri => mkZoomaEntry uri confidence source)
  pure ⟨zooma_label, confidence, source, entries⟩

/-- Attribute state of an `OxOResult` object. -/
structure OxOResult where
  query_id : String
  label : String
  db : String
  id_ : String
  uri : String
  oxo_mapping_list : List OxOMapping
deriving DecidableEq, Repr

/-- `OntologyEntry` (source lines 144-161): a (uri, label) pair with value
equality, the element type of a trait's finished-mapping set. -/
structure OntologyEntry where
  uri : String
  label : String
deriving DecidableEq, Repr

/-- Python `set.add` on a set modelled as a duplicate-free list: a new
element is appended, a present element leaves the set unchanged. -/
def setAdd (s : List OntologyEntry) (x : OntologyEntry) : List OntologyEntry :=
  if x ∈ s then s else s ++ [x]

/-- `Trait` (source lines 164-208). `zooma_mapping_list` and
`oxo_xref_list` are `Option`s because `process_trait` assigns them the
return values of `get_ontology_mappings` / `get_oxo_results`, which are
`None` when the remote call failed entirely. -/
structure Trait where
  name : String
  frequency : Nat
  zooma_mapping_list : Option (List ZoomaMapping)
  oxo_xref_list : Option (List OxOResult)
  finished_mapping_set : List OntologyEntry

/-- `Trait.is_finished`: `len(self.finished_mapping_set) > 0`. -/
def Trait.is_finished (t : Trait) : Bool :=
  decide (0 < t.finished_mapping_set.length)

/-- The nested loop body of `Trait.process_zooma_mappings`: for every
mapping whose (string) confidence is `"high"` after lowercasing, every
entry with `in_efo` and `is_current` contributes
`OntologyEntry(entry.uri, entry.ontology_label)` to the set. -/
def zoomaFinishedSet (l : List ZoomaMapping) (s : List OntologyEntry) : List OntologyEntry :=
  l.foldl (fun s mapping =>
    if strToLower mapping.confidence == "high" then
      mapping.zooma_entry_list.foldl (fun s2 entry =>
        if entry.in_efo && entry.is_current then
          setAdd s2 ⟨entry.uri, entry.ontology_label⟩
        else s2) s
    else s) s

/-- `Trait.process_zooma_mappings` (source lines 183-195). Iterating a
`None` `zooma_mapping_list` raises `TypeError`. -/
def Trait.process_zooma_mappings (t : Trait) : Except PyError Trait :=
  match t.zooma_mapping_list with
  | none => Except.error PyError.typeError
  | some l =>
      Except.ok { t with finished_mapping_set := zoomaFinishedSet l t.finished_mapping_set }

/-- The nested loop body of `Trait.process_oxo_mappings`: every mapping of
every result with `in_efo`, `is_current` and `distance == 1` contributes
`OntologyEntry(str(mapping.uri), mapping.ontology_label)` to the set. -/
def oxoFinishedSet (results : List OxOResult) (s : List OntologyEntry) : List OntologyEntry :=
  results.foldl (fun s result =>
    result.oxo_mapping_list.foldl (fun s2 mapping =>
      if mapping.in_efo && mapping.is_current && (mapping.distance == 1) then
        setAdd s2 ⟨mapping.uri, mapping.ontology_label⟩
      else s2) s) s

/-- `Trait.process_oxo_mappings` (source lines 197-208). Iterating a `None`
`oxo_xref_list` raises `TypeError`. -/
def Trait.process_oxo_mappings (t : Trait) : Except PyError Trait :=
  match t.oxo_xref_list with
  | none => Except.error PyError.typeError
  | some results =>
      Except.ok { t with finished_mapping_set := oxoFinishedSet results t.finished_mapping_set }

/-!
## Membership lemmas for the finished-mapping set folds
-/

theorem bool_and_elim {a b : Bool} (h : (a && b) = true) : a = true ∧ b = true := by
  simpa using h

theorem bool_and_intro_pair {a b : Bool} (h : a = true ∧ b = true) : (a && b) = true := by
  simp [h.1, h.2]

theorem mem_setAdd (s : List OntologyEntry) (x y : OntologyEntry) :
    y ∈ setAdd s x ↔ y ∈ s ∨ y = x := by
  unfold setAdd
  split
  · rename_i hx
    constructor
    · exact Or.inl
    · rintro (h | rfl)
      · exact h
      · exact hx
  · simp [List.mem_append]

theorem mem_entryFold {α : Type} (cond : α → Bool) (pair : α → OntologyEntry) :
    ∀ (l : List α) (s : List OntologyEntry) (x : OntologyEntry),
      (x ∈ l.foldl (fun s2 e => if cond e then setAdd s2 (pair e) else s2) s ↔
        x ∈ s ∨ ∃ e ∈ l, cond e = true ∧ x = pair e) := by
  intro l
  induction l with
  | nil => intro s x; simp
  | cons a as ih =>
      intro s x
      simp only [List.foldl_cons]
      rw [ih]
      by_cases h : cond a
      · simp only [h, if_true, mem_setAdd, List.mem_cons]
        constructor
        · rintro ((hx | rfl) | ⟨e, he, hc, hp⟩)
          · exact Or.inl hx
          · exact Or.inr ⟨a, Or.inl rfl, h, rfl⟩
          · exact Or.inr ⟨e, Or.inr he, hc, hp⟩
        · rintro (hx | ⟨e, (rfl | he), hc, hp⟩)
          · exact Or.inl (Or.inl hx)
          · exact Or.inl (Or.inr hp)
          · exact Or.inr ⟨e, he, hc, hp⟩
      · simp only [h, if_false, List.mem_cons]
        constructor
        · rintro (hx | ⟨e, he, hc, hp⟩)
          · exact Or.inl hx
          · exact Or.inr ⟨e, Or.inr he, hc, hp⟩
        · rintro (hx | ⟨e, (rfl | he), hc, hp⟩)
          · exact Or.inl hx
          · exact absurd hc (by simpa using h)
          · exact Or.inr ⟨e, he, hc, hp⟩

theorem mem_zoomaFinishedSet :
    ∀ (l : List ZoomaMapping) (s : List OntologyEntry) (x : OntologyEntry),
      (x ∈ zoomaFinishedSet l s ↔
        x ∈ s ∨ ∃ m ∈ l, strToLower m.confidence = "high" ∧
          ∃ e ∈ m.zooma_entry_list, e.in_efo = true ∧ e.is_current = true ∧
            x = ⟨e.uri, e.ontology_label⟩) := by
  intro l
  induction l with
  | nil => intro s x; simp [zoomaFinishedSet]
  | cons m ms ih =>
      intro s x
      have hstep : zoomaFinishedSet (m :: ms) s =
          zoomaFinishedSet ms
            (if strToLower m.confidence == "high" then
              m.zooma_entry_list.foldl (fun s2 entry =>
                if entry.in_efo && entry.is_current then
                  setAdd s2 ⟨entry.uri, entry.ontology_label⟩
                else s2) s
            else s) := rfl
      rw [hstep, ih]
      by_cases h : strToLower m.confidence = "high"
      · simp only [h, beq_self_eq_true, if_true,
          mem_entryFold (fun e : ZoomaEntry => e.in_efo && e.is_current)
            (fun e : ZoomaEntry => ⟨e.uri, e.ontology_label⟩), List.mem_cons]
        constructor
        · rintro ((hx | ⟨e, he, hc, hp⟩) | ⟨g, hg, hgh, rest⟩)
          · exact Or.inl hx
          · rcases bool_and_elim hc with ⟨h1, h2⟩
            exact Or.inr ⟨m, Or.inl rfl, h, e, he, h1, h2, hp⟩
          · exact Or.inr ⟨g, Or.inr hg, hgh, rest⟩
        · rintro (hx | ⟨g, (rfl | hg), hgh, e, he, h1, h2, hp⟩)
          · exact Or.inl (Or.inl hx)
          · exact Or.inl (Or.inr ⟨e, he, bool_and_intro_pair ⟨h1, h2⟩, hp⟩)
          · exact Or.inr ⟨g, hg, hgh, e, he, h1, h2, hp⟩
      · have hb : (strToLower m.confidence == "high") = false := by
          simpa using h
        simp only [hb, if_false, List.mem_cons]
        constructor
        · rintro (hx | ⟨g, hg, hgh, rest⟩)
          · exact Or.inl hx
          · exact Or.inr ⟨g, Or.inr hg, hgh, rest⟩
        · rintro (hx | ⟨g, (rfl | hg), hgh, rest⟩)
          · exact Or.inl hx
          · exact absurd hgh h
          · exact Or.inr ⟨g, hg, hgh, rest⟩

theorem mem_oxoFinishedSet :
    ∀ (results : List OxOResult) (s : List OntologyEntry) (x : OntologyEntry),
      (x ∈ oxoFinishedSet results s ↔
        x ∈ s ∨ ∃ r ∈ results, ∃ m ∈ r.oxo_mapping_list,
          m.in_efo = true ∧ m.is_current = true ∧ m.distance = 1 ∧
            x = ⟨m.uri, m.ontology_label⟩) := by
  intro results
  induction results with
  | nil => intro s x; simp [oxoFinishedSet]
  | cons r rs ih =>
      intro s x
      have hstep : oxoFinishedSet (r :: rs) s =
          oxoFinishedSet rs
            (r.oxo_mapping_list.foldl (fun s2 mapping =>
              if mapping.in_efo && mapping.is_current && (mapping.distance == 1) then
                setAdd s2 ⟨mapping.uri, mapping.ontology_label⟩
              else s2) s) := rfl
      rw [hstep, ih]
      simp only [mem_entryFold (fun m : OxOMapping => m.in_efo && m.is_current && (m.distance == 1))
          (fun m : OxOMapping => ⟨m.uri, m.ontology_label⟩)]
      constructor
      · rintro ((hx | ⟨m, hm, hc, hp⟩) | ⟨g, hg, rest⟩)
        · exact Or.inl hx
        · rcases bool_and_elim hc with ⟨hc1, h3⟩
          rcases bool_and_elim hc1 with ⟨h1, h2⟩
          exact Or.inr ⟨r, List.mem_cons_self r rs, m, hm, h1, h2, by simpa using h3, hp⟩
        · exact Or.inr ⟨g, List.mem_cons_of_mem r hg, rest⟩
      · rintro (hx | ⟨g, hg, m, hm, h1, h2, h3, hp⟩)
        · exact Or.inl (Or.inl hx)
        · rcases List.mem_cons.mp hg with rfl | hg
          · exact Or.inl (Or.inr ⟨m, hm,
              bool_and_intro_pair ⟨bool_and_intro_pair ⟨h1, h2⟩, by simpa using h3⟩, hp⟩)
          · exact Or.inr ⟨g, hg, m, hm, h1, h2, h3, hp⟩

theorem exists_mem_iff_ne_nil {α : Type} (l : List α) :
    (∃ x, x ∈ l) ↔ l ≠ [] := by
  cases l with
  | nil => simp
  | cons a as => simp [List.mem_cons]

/-!
## Claim C9: `OntologyUri` formatting
-/

/-- Counterexample for C9: on the identifier "HP0002066" (no colon) the
code strips the first three characters "HP0" and produces a URI ending in
`HP_002066`, not `HP_0002066` as the claim states; the three stripped
characters are the redundant "HP:" prefix of identifiers such as
"HP:0002066". -/
theorem ontologyUri_hp_identifier_counterexample :
    OntologyUri "HP0002066" "human phenotype ontology" =
      Except.ok "http://purl.obolibrary.org/obo/HP_002066" ∧
    strEndsWith "http://purl.obolibrary.org/obo/HP_002066" "HP_0002066" = false := by
  exact ⟨rfl, by decide⟩

/-- C9 (amended): `OntologyUri` maps identifier "199318" with database
"orphanet" (case-insensitively) to a URI ending in `Orphanet_199318`, and
identifier "HP:0002066" (colon included) with database "human phenotype
ontology" to a URI ending in `HP_0002066` (first three characters
stripped, only for that long name); for every database name outside the
fixed table the construction fails with a `KeyError` that propagates to
the caller. -/
theorem ontologyUri_formatting_spec :
    (∃ u, OntologyUri "199318" "orphanet" = Except.ok u ∧
      strEndsWith u "Orphanet_199318" = true) ∧
    (∃ u, OntologyUri "199318" "Orphanet" = Except.ok u ∧
      strEndsWith u "Orphanet_199318" = true) ∧
    (∃ u, OntologyUri "HP:0002066" "human phenotype ontology" = Except.ok u ∧
      strEndsWith u "HP_0002066" = true) ∧
    ∀ (id_ db : String), db_to_uri_dict.lookup (strToLower db) = none →
      OntologyUri id_ db = Except.error PyError.keyError := by
  refine ⟨⟨_, rfl, by decide⟩, ⟨_, rfl, by decide⟩, ⟨_, rfl, by decide⟩, ?_⟩
  intro id_ db h
  simp [OntologyUri, h]

/-- Witness for C9: the database name "doid" is outside the fixed table and
the construction fails with a propagating `KeyError`. -/
theorem ontologyUri_formatting_spec_witness :
    OntologyUri "162" "doid" = Except.error PyError.keyError :=
  ontologyUri_formatting_spec.2.2.2 "162" "doid" (by decide)

/-!
## Claim C10: `OxOMapping.__eq__` returns a tuple
-/

/-- C10: comparing two `OxOMapping` values with `==` yields a 7-tuple of
per-field booleans rather than a single boolean; a non-empty tuple is
always truthy, so in a boolean context the comparison is treated as true
for every pair of `OxOMapping` values, while comparing against a value of
a different type returns `False`. -/
theorem oxoMapping_eq_returns_truthy_tuple :
    ∀ (a b : OxOMapping) (s : String),
      (∃ bs, OxOMapping.eq a (PyObj.oxoMapping b) = PyEqResult.tuple bs ∧ bs.length = 7) ∧
      pyTruthy (OxOMapping.eq a (PyObj.oxoMapping b)) = true ∧
      OxOMapping.eq a (PyObj.other s) = PyEqResult.bool false :=
  fun _ _ _ => ⟨⟨_, rfl, rfl⟩, rfl, rfl⟩

/-!
## Claim C2: the Zooma finish rule
-/

/-- C2: with a present Zooma mapping-group list and an initially empty
finished-mapping set, `process_zooma_mappings` finishes the trait iff at
least one entry of a HIGH-confidence group has `in_efo` and `is_current`
both true, and the finished-mapping set afterwards holds exactly the
(URI, ontology label) pairs of all such entries; entries of non-HIGH
groups are never added. -/
theorem process_zooma_mappings_finish_rule
    (t : Trait) (l : List ZoomaMapping) (t2 : Trait)
    (hl : t.zooma_mapping_list = some l)
    (hs : t.finished_mapping_set = [])
    (h : t.process_zooma_mappings = Except.ok t2) :
    (t2.is_finished = true ↔
      ∃ m ∈ l, strToLower m.confidence = "high" ∧
        ∃ e ∈ m.zooma_entry_list, e.in_efo = true ∧ e.is_current = true) ∧
    ∀ x : OntologyEntry, (x ∈ t2.finished_mapping_set ↔
      ∃ m ∈ l, strToLower m.confidence = "high" ∧
        ∃ e ∈ m.zooma_entry_list, e.in_efo = true ∧ e.is_current = true ∧
          x = ⟨e.uri, e.ontology_label⟩) := by
  unfold Trait.process_zooma_mappings at h
  rw [hl] at h
  simp only [Except.ok.injEq] at h
  have hset : t2.finished_mapping_set = zoomaFinishedSet l [] := by
    rw [← h, ← hs]
  constructor
  · rw [show t2.is_finished = decide (0 < t2.finished_mapping_set.length) from rfl,
      hset, decide_eq_true_eq, List.length_pos, ← exists_mem_iff_ne_nil]
    constructor
    · rintro ⟨x, hx⟩
      rcases (mem_zoomaFinishedSet l [] x).mp hx with hx0 |
          ⟨m, hm, hc, e, he, h1, h2, _⟩
      · simp at hx0
      · exact ⟨m, hm, hc, e, he, h1, h2⟩
    · rintro ⟨m, hm, hc, e, he, h1, h2⟩
      exact ⟨⟨e.uri, e.ontology_label⟩,
        (mem_zoomaFinishedSet l [] _).mpr
          (Or.inr ⟨m, hm, hc, e, he, h1, h2, rfl⟩)⟩
  · intro x
    rw [hset, mem_zoomaFinishedSet]
    simp

def zoomaListC2 : List ZoomaMapping :=
  [⟨"intellectual disability", "HIGH", "cttv",
    [⟨"http://www.ebi.ac.uk/efo/EFO_0003847", ZoomaConfidence.HIGH, "cttv",
      "intellectual disability", true, true⟩]⟩,
   ⟨"intellectual disability", "MEDIUM", "gwas",
    [⟨"http://purl.obolibrary.org/obo/HP_0001249", ZoomaConfidence.MEDIUM, "gwas",
      "intellectual disability", true, true⟩]⟩]

def traitC2 : Trait := ⟨"intellectual disability", 5, some zoomaListC2, some [], []⟩

def traitC2done : Trait :=
  { traitC2 with finished_mapping_set := zoomaFinishedSet zoomaListC2 [] }

/-- Witness for C2, at a trait with one HIGH group whose entry is current
and in EFO plus one MEDIUM group. -/
theorem process_zooma_mappings_finish_rule_witness :
    (traitC2done.is_finished = true ↔
      ∃ m ∈ zoomaListC2, strToLower m.confidence = "high" ∧
        ∃ e ∈ m.zooma_entry_list, e.in_efo = true ∧ e.is_current = true) ∧
    ∀ x : OntologyEntry, (x ∈ traitC2done.finished_mapping_set ↔
      ∃ m ∈ zoomaListC2, strToLower m.confidence = "high" ∧
        ∃ e ∈ m.zooma_entry_list, e.in_efo = true ∧ e.is_current = true ∧
          x = ⟨e.uri, e.ontology_label⟩) :=
  process_zooma_mappings_finish_rule traitC2 zoomaListC2 traitC2done rfl rfl rfl

/-!
## Claim C4: the OxO finish rule
-/

/-- C4: with present OxO results and an initially empty finished-mapping
set, `process_oxo_mappings` finishes the trait iff some returned mapping
has `in_efo` true, `is_current` true and distance exactly 1 (so a
distance-2 mapping with both flags true never finishes the trait), and the
finished-mapping set afterwards holds exactly the (URI, ontology label)
pairs of the qualifying distance-1 mappings. -/
theorem process_oxo_mappings_finish_rule
    (t : Trait) (results : List OxOResult) (t2 : Trait)
    (hl : t.oxo_xref_list = some results)
    (hs : t.finished_mapping_set = [])
    (h : t.process_oxo_mappings = Except.ok t2) :
    (t2.is_finished = true ↔
      ∃ r ∈ results, ∃ m ∈ r.oxo_mapping_list,
        m.in_efo = true ∧ m.is_current = true ∧ m.distance = 1) ∧
    ∀ x : OntologyEntry, (x ∈ t2.finished_mapping_set ↔
      ∃ r ∈ results, ∃ m ∈ r.oxo_mapping_list,
        m.in_efo = true ∧ m.is_current = true ∧ m.distance = 1 ∧
          x = ⟨m.uri, m.ontology_label⟩) := by
  unfold Trait.process_oxo_mappings at h
  rw [hl] at h
  simp only [Except.ok.injEq] at h
  have hset : t2.finished_mapping_set = oxoFinishedSet results [] := by
    rw [← h, ← hs]
  constructor
  · rw [show t2.is_finished = decide (0 < t2.finished_mapping_set.length) from rfl,
      hset, decide_eq_true_eq, List.length_pos, ← exists_mem_iff_ne_nil]
    constructor
    · rintro ⟨x, hx⟩
      rcases (mem_oxoFinishedSet results [] x).mp hx with hx0 |
          ⟨r, hr, m, hm, h1, h2, h3, _⟩
      · simp at hx0
      · exact ⟨r, hr, m, hm, h1, h2, h3⟩
    · rintro ⟨r, hr, m, hm, h1, h2, h3⟩
      exact ⟨⟨m.uri, m.ontology_label⟩,
        (mem_oxoFinishedSet results [] _).mpr
          (Or.inr ⟨r, hr, m, hm, h1, h2, h3, rfl⟩)⟩
  · intro x
    rw [hset, mem_oxoFinishedSet]
    simp

def oxoResultsC4 : List OxOResult :=
  [⟨"Orphanet:199318", "lipodystrophy", "Orphanet", "199318",
    "http://www.orpha.net/ORDO/Orphanet_199318",
    [⟨"lipodystrophy", "EFO", "1001255", "http://www.ebi.ac.uk/efo/EFO_1001255", 1,
      "Orphanet:199318", true, true, "lipodystrophy"⟩,
     ⟨"lipoatrophy", "EFO", "0009002", "http://www.ebi.ac.uk/efo/EFO_0009002", 2,
      "Orphanet:199318", true, true, "lipoatrophy"⟩]⟩]

def traitC4 : Trait := ⟨"familial partial lipodystrophy", 2, some [], some oxoResultsC4, []⟩

def traitC4done : Trait :=
  { traitC4 with finished_mapping_set := oxoFinishedSet oxoResultsC4 [] }

/-- Witness for C4, at a trait whose OxO result has one qualifying
distance-1 mapping and one distance-2 mapping with both flags true. -/
theorem process_oxo_mappings_finish_rule_witness :
    (traitC4done.is_finished = true ↔
      ∃ r ∈ oxoResultsC4, ∃ m ∈ r.oxo_mapping_list,
        m.in_efo = true ∧ m.is_current = true ∧ m.distance = 1) ∧
    ∀ x : OntologyEntry, (x ∈ traitC4done.finished_mapping_set ↔
      ∃ r ∈ oxoResultsC4, ∃ m ∈ r.oxo_mapping_list,
        m.in_efo = true ∧ m.is_current = true ∧ m.distance = 1 ∧
          x = ⟨m.uri, m.ontology_label⟩) :=
  process_oxo_mappings_finish_rule traitC4 oxoResultsC4 traitC4done rfl rfl rfl

/-!
## OxO identifier conversion (source lines 604-639)
-/

/-- `URI_DB_TO_DB_DICT`. -/
def URI_DB_TO_DB_DICT : List (String × String) :=
  [("ordo", "Orphanet"),
   ("omim", "OMIM"),
   ("efo", "EFO"),
   ("mesh", "MeSH"),
   ("obo", "HP")]

/-- The guard of `uri_to_oxo_format`:
`any(x in uri.lower() for x in URI_DB_TO_DB_DICT.keys())`. -/
def oxoGuard (uri : String) : Bool :=
  URI_DB_TO_DB_DICT.any (fun kv => strContainsSub (strToLower uri) kv.1)

/-- Python `uri_list[-2]` on the non-empty result of `split("/")`:
raises `IndexError` when the list has fewer than two elements, else looks
the lowercased segment up in `URI_DB_TO_DB_DICT` (raising `KeyError` when
absent). -/
def uri_to_oxo_format (uri : String) : Except PyError (Option String) :=
  if !oxoGuard uri then
    Except.ok none
  else
    let uri2 := rstripSlash uri
    let uri_list := strSplitSlash uri2
    let id_ := stripNonDigits (uri_list.getLastD "")
    if uri_list.length < 2 then
      Except.error PyError.indexError
    else
      match URI_DB_TO_DB_DICT.lookup (strToLower (uri_list.getD (uri_list.length - 2) "")) with
      | none => Except.error PyError.keyError
      | some db => Except.ok (some (db ++ ":" ++ id_))

/-- `uris_to_oxo_format` (source lines 632-639): convert each URI of the
set, appending only non-`None` results; any exception raised for one URI
aborts the whole batch. -/
def uris_to_oxo_format (uri_set : List String) : Except PyError (List String) :=
  uri_set.foldlM (fun oxo_id_list uri => do
    let oxo_id ← uri_to_oxo_format uri
    match oxo_id with
    | none => pure oxo_id_list
    | some v => pure (oxo_id_list ++ [v])) []

/-!
## `get_uris_for_oxo` and `process_trait` (source lines 312-361)
-/

/-- Python `set.update` for a set of URI strings modelled as a
duplicate-free list. -/
def strSetAdd (s : List String) (x : String) : List String :=
  if x ∈ s then s else s ++ [x]

/-- `get_uris_for_oxo`: the URIs of all entries of HIGH-confidence Zooma
mappings (the set is modelled as a duplicate-free list in encounter
order). -/
def get_uris_for_oxo (zooma_mapping_list : List ZoomaMapping) : List String :=
  zooma_mapping_list.foldl (fun uri_set mapping =>
    if strToLower mapping.confidence == "high" then
      mapping.zooma_entry_list.foldl (fun us entry => strSetAdd us entry.uri) uri_set
    else uri_set) []

/-- `process_trait` (source lines 329-361), with the two remote calls
supplied as parameters: `zoomaResult` is what `get_ontology_mappings`
returned (`None` when Zooma failed after all retries) and `oxoResult` is
what `get_oxo_results` returned (`None` when OxO failed after all
retries). The `Bool` of the result records whether the OxO query
(`get_oxo_results`) was issued for this trait. -/
def process_trait (zoomaResult : Option (List ZoomaMapping))
    (oxoResult : Option (List OxOResult)) (t : Trait) :
    Bool × Except PyError Trait :=
  let t1 : Trait := { t with zooma_mapping_list := zoomaResult }
  match zoomaResult with
  | none =>
      -- `t1.process_zooma_mappings()` iterates `None` and raises `TypeError`
      (false, Except.error PyError.typeError)
  | some l =>
      -- `t1.process_zooma_mappings()` succeeded:
      let t2 : Trait :=
        { t1 with finished_mapping_set := zoomaFinishedSet l t1.finished_mapping_set }
      if t2.is_finished || decide (l.length = 0)
          || l.any (fun m => m.zooma_entry_list.any (fun e => e.is_current)) then
        (false, Except.ok t2)
      else
        let uris_for_oxo_set := get_uris_for_oxo l
        if decide (uris_for_oxo_set.length = 0) then
          (false, Except.ok t2)
        else
          match uris_to_oxo_format uris_for_oxo_set with
          | Except.error e => (false, Except.error e)
          | Except.ok _oxo_input_id_list =>
              -- `get_oxo_results` is the OxO query; its outcome is `oxoResult`
              match oxoResult with
              | none =>
                  -- `t2.process_oxo_mappings()` iterates `None` and raises `TypeError`
                  (true, Except.error PyError.typeError)
              | some results =>
                  (true, Except.ok
                    { t2 with
                      oxo_xref_list := some results,
                      finished_mapping_set :=
                        oxoFinishedSet results t2.finished_mapping_set })

/-!
## Claim C1: total Zooma failure crashes `process_trait`
-/

/-- C1 (code divergence): when the Zooma query failed entirely
(`get_ontology_mappings` returned `None` after exhausting its retries),
`process_trait` stores `None` in `trait.zooma_mapping_list` and
`process_zooma_mappings` immediately raises `TypeError` by iterating it,
so the trait does NOT reach a curation row and the failure IS fatal,
contrary to the claim. -/
theorem process_trait_zooma_failure_raises :
    ∀ (oxoResult : Option (List OxOResult)) (t : Trait),
      process_trait none oxoResult t = (false, Except.error PyError.typeError) :=
  fun _ _ => rfl

/-!
## Claim C3: necessary conditions for the OxO query
-/

/-- C3: `process_trait` issues the OxO query (`get_oxo_results`) only when
the trait did not finish from the Zooma mappings, the Zooma mapping list
is non-empty, no Zooma entry of any confidence is current, and the URI set
drawn from HIGH-confidence mappings is non-empty; in particular a trait
with a current Zooma entry never triggers the OxO call. -/
theorem process_trait_oxo_query_only_if
    (l : List ZoomaMapping) (oxoResult : Option (List OxOResult)) (t : Trait)
    (r : Except PyError Trait)
    (hs : t.finished_mapping_set = [])
    (h : process_trait (some l) oxoResult t = (true, r)) :
    zoomaFinishedSet l [] = [] ∧
    l ≠ [] ∧
    (∀ m ∈ l, ∀ e ∈ m.zooma_entry_list, e.is_current = false) ∧
    get_uris_for_oxo l ≠ [] := by
  unfold process_trait at h
  simp only [Trait.is_finished] at h
  split at h
  · rename_i hc1
    simp at h
  · rename_i hc1
    split at h
    · rename_i hc2
      simp at h
    · rename_i hc2
      simp only [Bool.or_eq_true, not_or, decide_eq_true_eq] at hc1 hc2
      obtain ⟨⟨hfin, hlen⟩, hcur⟩ := hc1
      refine ⟨?_, ?_, ?_, ?_⟩
      · rw [← List.length_eq_zero]
        have : ¬ 0 < (zoomaFinishedSet l t.finished_mapping_set).length := by
          simpa using hfin
        rw [hs] at this
        omega
      · intro hnil
        exact hlen (by simp [hnil])
      · intro m hm e he
        by_contra hcur2
        rw [Bool.not_eq_false] at hcur2
        apply hcur
        simp only [List.any_eq_true]
        exact ⟨m, hm, e, he, hcur2⟩
      · intro hnil
        exact hc2 (by simp [hnil])

def zoomaListC3 : List ZoomaMapping :=
  [⟨"pulmonary hypertension", "HIGH", "eva-clinvar",
    [⟨"http://www.orpha.net/ORDO/Orphanet_182090", ZoomaConfidence.HIGH, "eva-clinvar",
      "pulmonary hypertension", false, false⟩]⟩]

def traitC3 : Trait := ⟨"pulmonary hypertension", 4, none, none, []⟩

def traitC3done : Trait := ⟨"pulmonary hypertension", 4, some zoomaListC3, some [], []⟩

/-- Witness for C3, at a trait whose single HIGH Zooma entry is neither in
EFO nor current, so the OxO query is issued. -/
theorem process_trait_oxo_query_only_if_witness :
    zoomaFinishedSet zoomaListC3 [] = [] ∧
    zoomaListC3 ≠ [] ∧
    (∀ m ∈ zoomaListC3, ∀ e ∈ m.zooma_entry_list, e.is_current = false) ∧
    get_uris_for_oxo zoomaListC3 ≠ [] :=
  process_trait_oxo_query_only_if zoomaListC3 (some []) traitC3
    (Except.ok traitC3done) rfl rfl

/-!
## Claim C6: conversion of URI batches for OxO
-/

/-- Counterexample for C6: the URI "http://omim.org/entry/123456" passes
the substring guard (it contains the table key "omim") but its
second-to-last path segment "entry" is not in the table, so
`uri_to_oxo_format` raises `KeyError` instead of silently dropping the
URI, and the whole batch fails. -/
theorem uris_to_oxo_format_raises_counterexample :
    oxoGuard "http://omim.org/entry/123456" = true ∧
    uri_to_oxo_format "http://omim.org/entry/123456" = Except.error PyError.keyError ∧
    uris_to_oxo_format ["http://omim.org/entry/123456"] = Except.error PyError.keyError := by
  exact ⟨by decide, rfl, rfl⟩

/-- C6 (amended): a URI is silently omitted (converted to `None`, never an
exception) exactly when no source label of the fixed table occurs
case-insensitively as a substring anywhere in the URI, and such a URI
contributes nothing to the batch; a URI that passes this substring guard
but whose second-to-last path segment is not a table key raises an
exception that fails the whole batch (see the counterexample). -/
theorem uris_to_oxo_format_amended :
    ∀ uri : String,
      (uri_to_oxo_format uri = Except.ok none ↔ oxoGuard uri = false) ∧
      (oxoGuard uri = false → ∀ rest : List String,
        uris_to_oxo_format (uri :: rest) = uris_to_oxo_format rest) := by
  intro uri
  have hok : oxoGuard uri = false → uri_to_oxo_format uri = Except.ok none := by
    intro hg
    unfold uri_to_oxo_format
    rw [hg]
    rfl
  refine ⟨⟨?_, hok⟩, ?_⟩
  · intro h
    by_contra hg
    rw [Bool.not_eq_false] at hg
    unfold uri_to_oxo_format at h
    rw [hg] at h
    simp only [Bool.not_true] at h
    rw [if_neg (by simp)] at h
    split at h
    · exact Except.noConfusion h
    · split at h
      · exact Except.noConfusion h
      · simp at h
  · intro hg rest
    have h1 := hok hg
    show uris_to_oxo_format (uri :: rest) = uris_to_oxo_format rest
    unfold uris_to_oxo_format
    simp only [List.foldlM]
    rw [h1]
    rfl

/-- Witness for C6 (amended): a URI containing no table key ("medgen" is
not in the OxO table) is dropped without affecting the rest of the
batch. -/
theorem uris_to_oxo_format_amended_witness :
    uris_to_oxo_format
      ["http://identifiers.org/medgen/C0025202", "http://identifiers.org/omim/601665"] =
    uris_to_oxo_format ["http://identifiers.org/omim/601665"] :=
  (uris_to_oxo_format_amended "http://identifiers.org/medgen/C0025202").2 (by decide)
    ["http://identifiers.org/omim/601665"]

/-!
## Comparators and the stable descending sort (source lines 67-69, 105-127)

Python tuple comparison `(x1, x2, x3) < (y1, y2, y3)` is embedded as a
lexicographic order on `Nat` triples, with booleans as 0/1. Python's
`list.sort(reverse=True)` is a stable descending sort: element `a` is
placed before `b` iff not `a < b`, with ties keeping their input order;
this is exactly `List.insertionSort` with the relation "not less than".
-/

/-- Python `<` on triples of numbers (lexicographic). -/
def tripleLt (x y : Nat × Nat × Nat) : Prop :=
  x.1 < y.1 ∨ (x.1 = y.1 ∧ (x.2.1 < y.2.1 ∨ (x.2.1 = y.2.1 ∧ x.2.2 < y.2.2)))

instance (x y : Nat × Nat × Nat) : Decidable (tripleLt x y) := by
  unfold tripleLt
  infer_instance

theorem tripleLt_asymm {x y : Nat × Nat × Nat} (h : tripleLt x y) : ¬ tripleLt y x := by
  obtain ⟨x1, x2, x3⟩ := x
  obtain ⟨y1, y2, y3⟩ := y
  unfold tripleLt at *
  dsimp at *
  omega

theorem tripleLt_neg_trans {x y z : Nat × Nat × Nat}
    (h1 : ¬ tripleLt x y) (h2 : ¬ tripleLt y z) : ¬ tripleLt x z := by
  obtain ⟨x1, x2, x3⟩ := x
  obtain ⟨y1, y2, y3⟩ := y
  obtain ⟨z1, z2, z3⟩ := z
  unfold tripleLt at *
  dsimp at *
  omega

/-- Python booleans compare as the integers 0 and 1. -/
def pyBool : Bool → Nat
  | false => 0
  | true => 1

/-- The tuple `(self.confidence, self.in_efo, self.is_current)` of
`ZoomaEntry.__lt__`, with the confidence enum compared by value. -/
def ZoomaEntry.sortKey (e : ZoomaEntry) : Nat × Nat × Nat :=
  (e.confidence.value, pyBool e.in_efo, pyBool e.is_current)

/-- `ZoomaEntry.__lt__`. -/
def ZoomaEntry.lt (a b : ZoomaEntry) : Prop :=
  tripleLt a.sortKey b.sortKey

instance : DecidableRel ZoomaEntry.lt := fun a b => by
  unfold ZoomaEntry.lt
  infer_instance

/-- `a` may precede `b` in the output of `sort(reverse=True)` over
`ZoomaEntry.__lt__`: not `a < b`. -/
def zoomaDescOrder (a b : ZoomaEntry) : Prop :=
  ¬ ZoomaEntry.lt a b

instance : DecidableRel zoomaDescOrder := fun a b => by
  unfold zoomaDescOrder
  infer_instance

instance : IsTotal ZoomaEntry zoomaDescOrder :=
  ⟨fun a b => by
    unfold zoomaDescOrder
    by_cases h : ZoomaEntry.lt a b
    · exact Or.inr (tripleLt_asymm h)
    · exact Or.inl h⟩

instance : IsTrans ZoomaEntry zoomaDescOrder :=
  ⟨fun _ _ _ hab hbc => tripleLt_neg_trans hab hbc⟩

/-- `OxOMapping.__lt__`:
`(other.distance, self.in_efo, self.is_current) <
 (self.distance, other.in_efo, other.is_current)`. -/
def OxOMapping.lt (a b : OxOMapping) : Prop :=
  tripleLt (b.distance, pyBool a.in_efo, pyBool a.is_current)
    (a.distance, pyBool b.in_efo, pyBool b.is_current)

instance : DecidableRel OxOMapping.lt := fun a b => by
  unfold OxOMapping.lt
  infer_instance

/-- `a` may precede `b` in the output of `sort(reverse=True)` over
`OxOMapping.__lt__`. -/
def oxoDescOrder (a b : OxOMapping) : Prop :=
  ¬ OxOMapping.lt a b

instance : DecidableRel oxoDescOrder := fun a b => by
  unfold oxoDescOrder
  infer_instance

/-!
## Curation candidate lists and trait output (source lines 238-309)
-/

/-- The loop plus `sort(reverse=True)` of `get_zooma_mappings_for_curation`
applied to an existing mapping list: collect every entry with `in_efo` and
`is_current`, then sort stably in descending order. -/
def zoomaEntriesForCuration (zl : List ZoomaMapping) : List ZoomaEntry :=
  (zl.foldl (fun acc zooma_mapping =>
    acc ++ zooma_mapping.zooma_entry_list.filter (fun e => e.in_efo && e.is_current)) []
    ).insertionSort zoomaDescOrder

/-- `get_zooma_mappings_for_curation` (source lines 249-256); iterating a
`None` `zooma_mapping_list` raises `TypeError`. -/
def get_zooma_mappings_for_curation (t : Trait) : Except PyError (List ZoomaEntry) :=
  match t.zooma_mapping_list with
  | none => Except.error PyError.typeError
  | some zl => Except.ok (zoomaEntriesForCuration zl)

/-- The loop plus `sort(reverse=True)` of `get_oxo_mappings_for_curation`
applied to an existing result list. -/
def oxoMappingsForCuration (ol : List OxOResult) : List OxOMapping :=
  (ol.foldl (fun acc oxo_result =>
    acc ++ oxo_result.oxo_mapping_list.filter (fun m => m.in_efo && m.is_current)) []
    ).insertionSort oxoDescOrder

/-- `get_oxo_mappings_for_curation` (source lines 260-267). -/
def get_oxo_mappings_for_curation (t : Trait) : Except PyError (List OxOMapping) :=
  match t.oxo_xref_list with
  | none => Except.error PyError.typeError
  | some ol => Except.ok (oxoMappingsForCuration ol)

/-- `output_trait_mapping` (source lines 238-246): one row per finished
mapping. -/
def output_trait_mapping (t : Trait) : List (List String) :=
  t.finished_mapping_set.map (fun ontology_entry =>
    [t.name, ontology_entry.uri, ontology_entry.label])

/-- The pipe-joined curation cell for a Zooma entry. -/
def zoomaCurationCell (e : ZoomaEntry) : String :=
  String.intercalate "|" [e.uri, e.ontology_label, e.confidence.memberName, e.source]

/-- The pipe-joined curation cell for an OxO mapping. -/
def oxoCurationCell (m : OxOMapping) : String :=
  String.intercalate "|" [m.uri, m.ontology_label, toString m.distance, m.query_id]

/-- `output_for_curation` (source lines 270-295): builds one row with the
trait name, frequency and all candidate cells, and writes it exactly
once. -/
def output_for_curation (t : Trait) : Except PyError (List (List String)) := do
  let zooma_entry_list ← get_zooma_mappings_for_curation t
  let oxo_mapping_list ← get_oxo_mappings_for_curation t
  pure [[t.name, toString t.frequency]
    ++ zooma_entry_list.map zoomaCurationCell
    ++ oxo_mapping_list.map oxoCurationCell]

/-- `output_trait` (source lines 298-309): finished-mapping rows when the
trait is finished, else the single curation row. The result pairs the rows
written to the mapping file with those written to the curation file. -/
def output_trait (t : Trait) : Except PyError (List (List String) × List (List String)) :=
  if t.is_finished then
    Except.ok (output_trait_mapping t, [])
  else do
    let curation_rows ← output_for_curation t
    pure (([] : List (List String)), curation_rows)

/-!
## Claim C5: exactly one kind of output row per trait
-/

theorem output_for_curation_eq (t : Trait) (zl : List ZoomaMapping) (ol : List OxOResult)
    (hz : t.zooma_mapping_list = some zl)
    (ho : t.oxo_xref_list = some ol) :
    output_for_curation t = Except.ok [[t.name, toString t.frequency]
      ++ (zoomaEntriesForCuration zl).map zoomaCurationCell
      ++ (oxoMappingsForCuration ol).map oxoCurationCell] := by
  unfold output_for_curation get_zooma_mappings_for_curation get_oxo_mappings_for_curation
  rw [hz, ho]
  rfl

/-- C5: for a processed trait (both remote-result lists present), exactly
one kind of output row is produced: when the finished-mapping set is
non-empty only finished-mapping rows are written, one per (URI, label)
pair, and no curation row; when it is empty exactly one curation row is
written (even with no candidates at all); never both kinds, never
neither. -/
theorem output_trait_exactly_one_kind
    (t : Trait) (zl : List ZoomaMapping) (ol : List OxOResult)
    (hz : t.zooma_mapping_list = some zl)
    (ho : t.oxo_xref_list = some ol) :
    ∃ mapping_rows curation_rows,
      output_trait t = Except.ok (mapping_rows, curation_rows) ∧
      ((t.finished_mapping_set ≠ [] ∧ curation_rows = [] ∧
          mapping_rows.length = t.finished_mapping_set.length) ∨
        (t.finished_mapping_set = [] ∧ mapping_rows = [] ∧ curation_rows.length = 1)) := by
  cases hfin : t.is_finished with
  | true =>
      refine ⟨output_trait_mapping t, [], ?_, Or.inl ⟨?_, rfl, ?_⟩⟩
      · unfold output_trait
        rw [hfin]
        rfl
      · have : 0 < t.finished_mapping_set.length := by
          have h2 := hfin
          unfold Trait.is_finished at h2
          simpa using h2
        rw [← List.length_pos]
        exact this
      · unfold output_trait_mapping
        exact List.length_map _ _
  | false =>
      have hfs : t.finished_mapping_set = [] := by
        have h2 := hfin
        unfold Trait.is_finished at h2
        rw [decide_eq_false_iff_not] at h2
        rw [← List.length_eq_zero]
        omega
      refine ⟨[], [[t.name, toString t.frequency]
        ++ (zoomaEntriesForCuration zl).map zoomaCurationCell
        ++ (oxoMappingsForCuration ol).map oxoCurationCell], ?_, Or.inr ⟨hfs, rfl, rfl⟩⟩
      unfold output_trait
      rw [hfin]
      simp only [Bool.false_eq_true, if_false]
      rw [show (do
        let curation_rows ← output_for_curation t
        pure (([] : List (List String)), curation_rows) :
          Except PyError (List (List String) × List (List String))) =
        Except.bind (output_for_curation t)
          (fun curation_rows => Except.ok ([], curation_rows)) from rfl,
        output_for_curation_eq t zl ol hz ho]
      rfl

def traitC5 : Trait := ⟨"vague syndrome", 2, some [], some [], []⟩

/-- Witness for C5, at a trait with no candidates at all: one curation row
is still written and no mapping row. -/
theorem output_trait_exactly_one_kind_witness :
    ∃ mapping_rows curation_rows,
      output_trait traitC5 = Except.ok (mapping_rows, curation_rows) ∧
      ((traitC5.finished_mapping_set ≠ [] ∧ curation_rows = [] ∧
          mapping_rows.length = traitC5.finished_mapping_set.length) ∨
        (traitC5.finished_mapping_set = [] ∧ mapping_rows = [] ∧ curation_rows.length = 1)) :=
  output_trait_exactly_one_kind traitC5 [] [] rfl rfl

/-!
## Claim C8: ordering of curation candidates
-/

def entryTieA : ZoomaEntry :=
  ⟨"http://www.ebi.ac.uk/efo/EFO_0000001", ZoomaConfidence.MEDIUM, "cttv",
    "experimental factor", true, true⟩

def entryTieB : ZoomaEntry :=
  ⟨"http://www.ebi.ac.uk/efo/EFO_0000002", ZoomaConfidence.MEDIUM, "cttv",
    "Abetalipoproteinemia", true, true⟩

def traitPermA : Trait :=
  ⟨"tied trait", 1, some [⟨"tied trait", "MEDIUM", "cttv", [entryTieA, entryTieB]⟩],
    some [], []⟩

def traitPermB : Trait :=
  ⟨"tied trait", 1, some [⟨"tied trait", "MEDIUM", "cttv", [entryTieB, entryTieA]⟩],
    some [], []⟩

/-- Counterexample for C8: the sort is stable and the comparator ignores
the URI, so two traits whose entry lists are the same multiset in
different orders produce different sorted curation sequences; sorting the
same multiset does not always yield the same sequence. -/
theorem zooma_curation_multiset_counterexample :
    [entryTieA, entryTieB].Perm [entryTieB, entryTieA] ∧
    get_zooma_mappings_for_curation traitPermA = Except.ok [entryTieA, entryTieB] ∧
    get_zooma_mappings_for_curation traitPermB = Except.ok [entryTieB, entryTieA] ∧
    [entryTieA, entryTieB] ≠ ([entryTieB, entryTieA] : List ZoomaEntry) :=
  ⟨List.Perm.swap entryTieB entryTieA [], rfl, rfl, by decide⟩

theorem zoomaDescOrder_confidence {a b : ZoomaEntry} (hab : zoomaDescOrder a b)
    (h1 : a.in_efo = b.in_efo) (h2 : a.is_current = b.is_current) :
    b.confidence.value ≤ a.confidence.value := by
  unfold zoomaDescOrder ZoomaEntry.lt ZoomaEntry.sortKey tripleLt at hab
  rw [h1, h2] at hab
  dsimp at hab
  omega

/-- C8 (amended): the sorted curation candidate list is ordered by the
descending comparator, so whenever two entries differ only in confidence
class (equal efo-membership and currency flags) the entry with the higher
confidence class precedes the lower one; the sort is a deterministic
function of the input sequence (ties keep their input order), but two
inputs equal only as multisets may sort to different sequences (see the
counterexample). -/
theorem zooma_curation_order_amended
    (t : Trait) (zl : List ZoomaMapping) (out : List ZoomaEntry)
    (hl : t.zooma_mapping_list = some zl)
    (h : get_zooma_mappings_for_curation t = Except.ok out) :
    out.Pairwise zoomaDescOrder ∧
    out.Pairwise (fun a b => a.in_efo = b.in_efo → a.is_current = b.is_current →
      b.confidence.value ≤ a.confidence.value) := by
  unfold get_zooma_mappings_for_curation at h
  rw [hl] at h
  simp only [Except.ok.injEq] at h
  subst h
  have hsorted : (zoomaEntriesForCuration zl).Pairwise zoomaDescOrder :=
    List.sorted_insertionSort zoomaDescOrder _
  exact ⟨hsorted, hsorted.imp (fun hab h1 h2 => zoomaDescOrder_confidence hab h1 h2)⟩

/-- Witness for C8 (amended), at the tied-entries trait. -/
theorem zooma_curation_order_amended_witness :
    ([entryTieA, entryTieB] : List ZoomaEntry).Pairwise zoomaDescOrder ∧
    ([entryTieA, entryTieB] : List ZoomaEntry).Pairwise
      (fun a b => a.in_efo = b.in_efo → a.is_current = b.is_current →
        b.confidence.value ≤ a.confidence.value) :=
  zooma_curation_order_amended traitPermA
    [⟨"tied trait", "MEDIUM", "cttv", [entryTieA, entryTieB]⟩]
    [entryTieA, entryTieB] rfl rfl

/-!
## Claim C7: malformed Zooma responses (source lines 463-476, 561-576)
-/

/-- The shape of one result object of a decoded Zooma response; each field
is `Option`al because a malformed result object may lack the key, in which
case the subscript raises `KeyError`. `propertyValue` stands for
`result["annotatedProperty"]["propertyValue"]` and `sourceName` for
`result["derivedFrom"]["provenance"]["source"]["name"]` (a missing link
anywhere along those chains is a missing field here). -/
structure ZoomaResultJson where
  semanticTags : Option (List String)
  propertyValue : Option String
  confidence : Option String
  sourceName : Option String

/-- A Python dict subscript: raises `KeyError` when the key is absent. -/
def pyGet {α : Type} : Option α → Except PyError α
  | none => Except.error PyError.keyError
  | some a => Except.ok a

/-- `get_mappings_for_trait` (source lines 561-576) over an
already-decoded response: one `ZoomaMapping` per result object, built from
the four extracted fields; any missing field raises. -/
def get_mappings_for_trait (zooma_response : List ZoomaResultJson) :
    Except PyError (List ZoomaMapping) :=
  zooma_response.foldlM (fun mappings result => do
    let uris ← pyGet result.semanticTags
    let zooma_label ← pyGet result.propertyValue
    let confidence ← pyGet result.confidence
    let source_name ← pyGet result.sourceName
    let m ← mkZoomaMapping uris zooma_label confidence source_name
    pure (mappings ++ [m])) []

/-- Counterexample for C7: a response that decoded fine but whose single
result object lacks the semantic-tags field makes
`get_mappings_for_trait` raise `KeyError` — the exception propagates out
of the parsing instead of being recovered as an absent result. -/
theorem get_mappings_for_trait_malformed_counterexample :
    get_mappings_for_trait [⟨none, some "intellectual disability", some "HIGH", some "cttv"⟩] =
      Except.error PyError.keyError :=
  rfl

/-- C7 (amended): only JSON-decoding failures are recovered as an absent
result (`zooma_query_helper` catches exactly `JSONDecodeError`); a
response that decodes but whose first result object is missing the
semantic-tags field makes `get_mappings_for_trait` raise `KeyError`, which
propagates out of the parsing, so such traits crash the run rather than
ending in NEEDS_CURATION. -/
theorem get_mappings_for_trait_malformed_raises
    (r : ZoomaResultJson) (rest : List ZoomaResultJson)
    (hmiss : r.semanticTags = none) :
    get_mappings_for_trait (r :: rest) = Except.error PyError.keyError := by
  unfold get_mappings_for_trait
  simp only [List.foldlM]
  rw [show pyGet r.semanticTags = Except.error PyError.keyError from by rw [hmiss]; rfl]
  rfl

/-- Witness for C7 (amended). -/
theorem get_mappings_for_trait_malformed_raises_witness :
    get_mappings_for_trait
      [⟨none, some "vague syndrome", some "MEDIUM", some "eva-clinvar"⟩,
       ⟨some ["http://www.ebi.ac.uk/efo/EFO_0003847"], some "vague syndrome", some "HIGH",
        some "cttv"⟩] = Except.error PyError.keyError :=
  get_mappings_for_trait_malformed_raises
    ⟨none, some "vague syndrome", some "MEDIUM", some "eva-clinvar"⟩
    [⟨some ["http://www.ebi.ac.uk/efo/EFO_0003847"], some "vague syndrome", some "HIGH",
      some "cttv"⟩] rfl
